import Mathlib

/-!
Verification development for the braydio/Scripts repository.

Each Python script relevant to the documented behaviour is shallowly
embedded as executable Lean definitions: pure helpers become Lean
functions, subprocess and HTTP effects become explicit environment
parameters (which tools exist, what each call returns), and file or
terminal output becomes explicit state that is threaded through.
String manipulation is modelled over character lists so that every
definition evaluates inside the kernel.

Embedded scripts:
* `python/update-service/arch-update.py` (namespace `ArchUpdate`)
* `auto-tooling/main.py` (namespace `AutoTooling`)
* `utility/gpt_api.py` (namespace `GptApi`)
* `temp/check_codec.py` (namespace `CheckCodec`)
* `media/autofiller.py` (namespace `Autofiller`)
-/

namespace Scripts

/-! ### Character-list string helpers

Kernel-reducible models of the Python string operations used by the
scripts (`str.lower`, `str.strip`, `str.endswith`, substring search,
`pathlib.Path.suffix`). -/

/-- Lower-case every character, modelling Python `str.lower()` /
`re.IGNORECASE` for the ASCII names these scripts handle. -/
def toLowerL (l : List Char) : List Char := l.map Char.toLower

/-- Boolean list-prefix test. -/
def isPrefixB : List Char → List Char → Bool
  | [], _ => true
  | _ :: _, [] => false
  | a :: as, b :: bs => a == b && isPrefixB as bs

/-- Boolean substring test: does `pat` occur contiguously in the string? -/
def isInfixB (pat : List Char) : List Char → Bool
  | [] => isPrefixB pat []
  | s :: rest => isPrefixB pat (s :: rest) || isInfixB pat rest

/-- Boolean list-suffix test, modelling Python `str.endswith`. -/
def isSuffixB (pat l : List Char) : Bool := isPrefixB pat.reverse l.reverse

/-- Strip leading and trailing whitespace, modelling Python `str.strip()`. -/
def trimL (l : List Char) : List Char :=
  ((l.dropWhile Char.isWhitespace).reverse.dropWhile Char.isWhitespace).reverse

/-- Python `s.strip()` as a `String`. -/
def pyStrip (s : String) : String := String.mk (trimL s.data)

/-- Python falsiness of `s.strip()`: true when `s` is empty or whitespace. -/
def pyBlank (s : String) : Bool := (trimL s.data).isEmpty

end Scripts

namespace ArchUpdate

open Scripts

/-- Runtime context of `arch-update.py` (`class Ctx`).  The log and
summary file paths are modelled as external state rather than fields. -/
structure Ctx where
  dryRun : Bool
  assumeYes : Bool
  cleanAfter : Bool
  deepClean : Bool
  removeOrphans : Bool
  aggressiveCache : Bool
  runNpmSudo : Bool
  llmBackend : String
deriving Repr, DecidableEq

/-- `Ctx.confirm`: auto-yes when `assume_yes` is set, otherwise consult
the interactive answer `ans q` (false covers both a declined answer and
`EOFError` on stdin, which the source maps to `False`). -/
def Ctx.confirm (ctx : Ctx) (ans : String → Bool) (q : String) : Bool :=
  if ctx.assumeYes then true else ans q

/-- One call to `Ctx.run`: the argv list plus the `sudo` / `allow_fail`
keyword arguments of the call site. -/
structure Invocation where
  cmd : List String
  useSudo : Bool
  allowFail : Bool
deriving Repr, DecidableEq

/-- The program a command invokes: the head of its argv list
(`sudo` is tracked separately, as in `Ctx.run`). -/
def Invocation.program (inv : Invocation) : String := inv.cmd.headD ""

@[simp] theorem Invocation.program_mk (c : String) (cs : List String) (s a : Bool) :
    Invocation.program ⟨c :: cs, s, a⟩ = c := rfl

/-- Models `sys.executable`, the interpreter path used for the inline
pip-upgrade snippet. -/
def sysExecutable : String := "/usr/bin/python3"

/-- The inline Python program passed to `sys.executable -c` by the
"Upgrade user pip packages" branch (body abridged: it lists outdated
`--user` packages and pip-installs each upgrade; its text plays no role
in any claim). -/
def pipSnippet : String :=
  "import subprocess, sys, json  # upgrade all outdated --user pip packages"

/-- AUR helper argv built by `update_system`: `-Syu --needed`, plus
unattended flags when `assume_yes` is set and the helper help text
advertises them (`helpFlag h f` models `f in _help_text(h)`). -/
def aurArgs (helper : String) (ctx : Ctx) (helpFlag : String → String → Bool) :
    List String :=
  helper :: "-Syu" :: "--needed" ::
    (if ctx.assumeYes then
      ["--noconfirm"] ++
      (if helpFlag helper "--answerdiff" then ["--answerdiff", "None"] else []) ++
      (if helpFlag helper "--answerclean" then ["--answerclean", "None"] else []) ++
      (if helpFlag helper "--sudoloop" then ["--sudoloop"] else [])
     else [])

/-- The AUR-helper branch of `update_system` for the selected helper. -/
def aurBlock (helper : String) (ctx : Ctx) (ans : String → Bool)
    (helpFlag : String → String → Bool) : List Invocation :=
  if ctx.confirm ans ("Run " ++ helper ++ " -Syu?") then
    [⟨aurArgs helper ctx helpFlag, false, true⟩]
  else []

/-- Commands issued to `Ctx.run` by `update_system`.  `have_ t` models
`have(t)` (tool `t` resolvable via `which`); `ans` models interactive
confirmation answers. -/
def update_system_cmds (ctx : Ctx) (have_ ans : String → Bool)
    (helpFlag : String → String → Bool) : List Invocation :=
  (if have_ "apt-get" then
    (if ctx.confirm ans "Run apt-get update && apt-get upgrade?" then
      [⟨["apt-get", "update"], true, false⟩,
       ⟨["apt-get", "upgrade", "-y"], true, false⟩,
       ⟨["apt-get", "autoremove", "-y"], true, true⟩,
       ⟨["apt-get", "autoclean", "-y"], true, true⟩]
     else [])
   else []) ++
  (if have_ "pacman" then
    (if ctx.confirm ans "Run pacman -Syu?" then
      [⟨"pacman" :: "-Syu" :: (if ctx.assumeYes then ["--noconfirm"] else []),
        true, false⟩]
     else [])
   else []) ++
  (if have_ "yay" then aurBlock "yay" ctx ans helpFlag
   else if have_ "paru" then aurBlock "paru" ctx ans helpFlag
   else [])

/-- Commands issued to `Ctx.run` by `update_flatpak`. -/
def update_flatpak_cmds (ctx : Ctx) (have_ ans : String → Bool) : List Invocation :=
  if have_ "flatpak" then
    if ctx.confirm ans "Run flatpak update?" then
      [⟨"flatpak" :: "update" :: (if ctx.assumeYes then ["-y"] else []), false, true⟩]
    else []
  else []

/-- Commands issued to `Ctx.run` by `update_languages`.  The pip branch
calls `Ctx.run` only outside dry-run mode (in dry-run it merely logs). -/
def update_languages_cmds (ctx : Ctx) (have_ ans : String → Bool) : List Invocation :=
  (if have_ "pipx" then
    (if ctx.confirm ans "pipx upgrade --all?" then
      [⟨["pipx", "upgrade", "--all"], false, true⟩]
     else [])
   else []) ++
  (if ctx.confirm ans "Upgrade user pip packages?" then
    (if ctx.dryRun then [] else [⟨[sysExecutable, "-c", pipSnippet], false, true⟩])
   else []) ++
  (if have_ "npm" then
    (if ctx.confirm ans "npm -g update?" then
      [⟨["npm", "-g", "update"], ctx.runNpmSudo, true⟩]
     else [])
   else []) ++
  (if have_ "cargo-install-update" then
    (if ctx.confirm ans "cargo install-update -a?" then
      [⟨["cargo", "install-update", "-a"], false, true⟩]
     else [])
   else []) ++
  (if have_ "gem" then
    (if ctx.confirm ans "gem update user?" then
      [⟨["gem", "update", "--user-install"], false, true⟩]
     else [])
   else [])

/-- The shell pipeline `update_containers` runs through `bash -c`. -/
def dockerPullCmd : String :=
  "docker ps --format \x27\x7b\x7b.Image\x7d\x7d\x27 | xargs -r -n1 docker pull"

/-- Commands issued to `Ctx.run` by `update_containers`. -/
def update_containers_cmds (ctx : Ctx) (have_ ans : String → Bool) : List Invocation :=
  if have_ "docker" then
    if ctx.confirm ans "Pull images for running containers?" then
      [⟨["bash", "-c", dockerPullCmd], false, true⟩]
    else []
  else []

/-- The commands `main` hands to `Ctx.run` across the four update areas,
in program order, given the selected area flags. -/
def mainUpdateCmds (system flatpak languages containers : Bool) (ctx : Ctx)
    (have_ ans : String → Bool) (helpFlag : String → String → Bool) :
    List Invocation :=
  (if system then update_system_cmds ctx have_ ans helpFlag else []) ++
  (if flatpak then update_flatpak_cmds ctx have_ ans else []) ++
  (if languages then update_languages_cmds ctx have_ ans else []) ++
  (if containers then update_containers_cmds ctx have_ ans else [])

/-- The update commands actually executed as subprocesses: in dry-run
mode `Ctx.run` prints the command and returns 0 without spawning
anything, so nothing is executed. -/
def executedCmds (system flatpak languages containers : Bool) (ctx : Ctx)
    (have_ ans : String → Bool) (helpFlag : String → String → Bool) :
    List Invocation :=
  if ctx.dryRun then []
  else mainUpdateCmds system flatpak languages containers ctx have_ ans helpFlag

end ArchUpdate

namespace ArchUpdate

open Scripts

/-! ### Log teeing (`Ctx.log`, `Ctx.run`) -/

/-- Terminal output and log-file contents, line by line (trailing
newlines are implicit; `Ctx.log` strips them before printing). -/
structure RunState where
  terminal : List String
  logLines : List String
deriving Repr, DecidableEq

/-- `Ctx.log`: print the message and append it to the log file. -/
def ctxLog (st : RunState) (msg : String) : RunState :=
  { terminal := st.terminal ++ [msg], logLines := st.logLines ++ [msg] }

/-- The tee loop of `Ctx.run`: each line read from the subprocess pipe
is written to stdout and appended to the log file (log writes are
assumed to succeed; the source swallows write errors per line). -/
def teeLines (st : RunState) : List String → RunState
  | [] => st
  | l :: ls => teeLines ⟨st.terminal ++ [l], st.logLines ++ [l]⟩ ls

/-- What the spawned subprocess did: `Popen` raised `FileNotFoundError`,
or it ran producing combined stdout+stderr `lines` and exit code `rc`. -/
inductive RunOutcome
  | notFound
  | ran (rc : Int) (lines : List String)
deriving Repr, DecidableEq

/-- `" ".join(cmd)` -/
def joinCmd (cmd : List String) : String := " ".intercalate cmd

/-- `Ctx.run`: dry-run prints the command only; otherwise the command is
echoed, subprocess output is teed line by line to terminal and log, and
a non-zero exit either returns (allow_fail) or raises
`CalledProcessError`.  ANSI colouring from `style` is omitted. -/
def ctxRun (ctx : Ctx) (cmd : List String) (sudo' allowFail : Bool)
    (outcome : RunOutcome) (st : RunState) : Except String Int × RunState :=
  let cmd := if sudo' then "sudo" :: cmd else cmd
  let cmdS := joinCmd cmd
  if ctx.dryRun then (Except.ok 0, ctxLog st ("[DRY-RUN] + " ++ cmdS))
  else
    let st1 := ctxLog st ("+ " ++ cmdS)
    match outcome with
    | RunOutcome.notFound =>
        let st2 := ctxLog st1 ("Command not found: " ++ cmd.headD "")
        if allowFail then (Except.ok 127, st2)
        else (Except.error "FileNotFoundError", st2)
    | RunOutcome.ran rc lines =>
        let st2 := teeLines st1 lines
        if rc ≠ 0 then
          let st3 := ctxLog st2 ("Command failed " ++ toString rc ++ ": " ++ cmdS)
          if allowFail then (Except.ok rc, st3)
          else (Except.error "CalledProcessError", st3)
        else (Except.ok rc, st2)

/-! ### LLM summarization (`summarize_with_openai`, `summarize_with_codex`,
and the fallback dispatch at the end of `main`) -/

/-- The two summarization backends the script can call. -/
inductive Backend
  | openai
  | codex
deriving Repr, DecidableEq

/-- Outcome of the hosted OpenAI chat-completions request: the HTTP or
JSON layer raised, the parsed body had no choices, or a message content
string `s` was extracted (`""` also covers a missing content field). -/
inductive OpenAIOutcome
  | reqError
  | noChoices
  | content (s : String)
deriving Repr, DecidableEq

/-- Outcome of `subprocess.run(["codex", "exec", "--json"], ...)`:
an exception (including timeout), or completion with exit code `rc`
and raw stdout. -/
inductive CodexOutcome
  | execError
  | ran (rc : Int) (stdout : String)
deriving Repr, DecidableEq

/-- External facts a summarization run observes. -/
structure LlmEnv where
  /-- `tail_bytes(ctx.log_file)` -/
  logTail : String
  /-- `OPENAI_API_KEY` is set and non-empty -/
  apiKeyPresent : Bool
  openaiOutcome : OpenAIOutcome
  /-- `have("codex")` -/
  haveCodex : Bool
  codexOutcome : CodexOutcome
deriving Repr, DecidableEq

/-- `build_summary_prompt`: `None` exactly when the log text is empty or
whitespace-only; otherwise the instruction template wrapped around the
log (template text abridged; only its non-emptiness matters here). -/
def build_summary_prompt (logText : String) : Option String :=
  if pyBlank logText then none
  else some
    ("Analyze the following system update log and produce a structured report.\n" ++
     "OUTPUT FORMAT (STRICT): SUMMARY_OVERVIEW / KEY_CHANGES / WARNINGS_ERRORS / " ++
     "FOLLOW_UP_ACTIONS / NOTABLE_DETAIL.\nBEGIN LOG\n" ++ logText ++ "\nEND LOG")

/-- `summarize_with_openai`: returns the success flag and the summary
file contents (`none` = never written).  The file is written only with
a non-empty stripped message content. -/
def summarize_with_openai (ctx : Ctx) (llmEnabled : Bool) (env : LlmEnv)
    (file : Option String) : Bool × Option String :=
  if !llmEnabled then (false, file)
  else if ctx.dryRun then (true, file)
  else if (build_summary_prompt env.logTail).isNone then (false, file)
  else if !env.apiKeyPresent then (false, file)
  else
    match env.openaiOutcome with
    | OpenAIOutcome.reqError => (false, file)
    | OpenAIOutcome.noChoices => (false, file)
    | OpenAIOutcome.content s =>
        let summary := pyStrip s
        if summary.data.isEmpty then (false, file)
        else (true, some summary)

/-- `summarize_with_codex`.  `parse` stands for `parse_codex_json`
(tolerant JSON / event-stream parsing of the stripped stdout; its result
is quantified over rather than re-implemented).  On a non-zero exit code
or an unparsable or empty response, a non-empty stdout is still written
to the summary file as a best-effort fallback. -/
def summarize_with_codex (ctx : Ctx) (llmEnabled : Bool) (env : LlmEnv)
    (parse : String → Option String) (file : Option String) : Bool × Option String :=
  if !llmEnabled then (false, file)
  else if ctx.dryRun then (true, file)
  else if (build_summary_prompt env.logTail).isNone then (false, file)
  else if !env.haveCodex then (false, file)
  else
    match env.codexOutcome with
    | CodexOutcome.execError => (false, file)
    | CodexOutcome.ran rc stdout =>
        let stdoutTxt := pyStrip stdout
        if rc ≠ 0 then
          (false, if !stdoutTxt.data.isEmpty then some stdoutTxt else file)
        else
          match parse stdoutTxt with
          | none => (false, if !stdoutTxt.data.isEmpty then some stdoutTxt else file)
          | some r =>
              let summary := pyStrip r
              if summary.data.isEmpty then
                (!stdoutTxt.data.isEmpty,
                 if !stdoutTxt.data.isEmpty then some stdoutTxt else file)
              else (true, some summary)

/-- The summarization dispatch at the end of `main`: skipped entirely
under `--no-llm`; otherwise the configured backend is tried first and
the other backend is tried only when the first reports failure.
Returns the backends attempted, in order, with the final summary-file
contents. -/
def runSummarization (ctx : Ctx) (noLlm : Bool) (env : LlmEnv)
    (parse : String → Option String) (file : Option String) :
    List Backend × Option String :=
  if noLlm then ([], file)
  else if ctx.llmBackend = "openai" then
    if (summarize_with_openai ctx true env file).1 then
      ([Backend.openai], (summarize_with_openai ctx true env file).2)
    else
      ([Backend.openai, Backend.codex],
       (summarize_with_codex ctx true env parse
          (summarize_with_openai ctx true env file).2).2)
  else
    if (summarize_with_codex ctx true env parse file).1 then
      ([Backend.codex], (summarize_with_codex ctx true env parse file).2)
    else
      ([Backend.codex, Backend.openai],
       (summarize_with_openai ctx true env
          (summarize_with_codex ctx true env parse file).2).2)

/-! ### Argument parsing (`parse_args`) -/

/-- The boolean flags produced by `argparse` in `parse_args` (store_true
actions; `--yes` or `-y` sets `assumeYes`, `--manual` sets `manual`). -/
structure Args where
  system : Bool
  flatpak : Bool
  languages : Bool
  containers : Bool
  noLlm : Bool
  dryRun : Bool
  assumeYes : Bool
  manual : Bool
  noClean : Bool
  deepClean : Bool
  removeOrphans : Bool
  aggressiveCache : Bool
  npmSudo : Bool
  useOpenai : Bool
  useCodex : Bool
deriving Repr, DecidableEq

/-- The post-processing `parse_args` applies after `argparse`: default
to a full run when no area flag is given, then resolve `--yes` versus
`--manual` (manual wins; with neither flag, assume yes by default). -/
def resolve_args (a : Args) : Args :=
  let a :=
    if !(a.system || a.flatpak || a.languages || a.containers) then
      { a with system := true, flatpak := true, languages := true,
               containers := true, deepClean := true, aggressiveCache := true }
    else a
  if a.manual then { a with assumeYes := false }
  else if !a.assumeYes then { a with assumeYes := true }
  else a

end ArchUpdate

namespace AutoTooling

/-- The polling loop body of `wait_for_restart`, with explicit fuel.
`flags k` tells whether `restart.flag` exists at the `k`-th existence
check (the source sleeps two seconds between checks).  Returns the
index of the check at which the flag was found, or `none` if the fuel
ran out with the loop still blocked. -/
def waitLoop (flags : Nat → Bool) : Nat → Nat → Option Nat
  | 0, _ => none
  | fuel + 1, k => if flags k then some k else waitLoop flags fuel (k + 1)

/-- `wait_for_restart`: poll from check 0 until `restart.flag` exists. -/
def wait_for_restart (flags : Nat → Bool) (fuel : Nat) : Option Nat :=
  waitLoop flags fuel 0

/-- One iteration of the `__main__` loop, as observed at the moment the
merge/scrape work (PR merge, DeepSource scrape) begins. -/
structure IterationStart where
  /-- index of the existence check at which `wait_for_restart` returned -/
  cycleStartPoll : Nat
  /-- whether `restart.flag` still exists when the work begins -/
  flagAtCycleStart : Bool
deriving Repr, DecidableEq

/-- One iteration of the `__main__` loop: block in `wait_for_restart`,
which unlinks `restart.flag` before returning; only then do
`get_latest_pr_url` / `merge_latest_pr` / scraping run.  `none` means
the iteration is still blocked waiting and no cycle has started. -/
def bot_iteration (flags : Nat → Bool) (fuel : Nat) : Option IterationStart :=
  match wait_for_restart flags fuel with
  | none => none
  | some k => some ⟨k, false⟩

end AutoTooling

namespace GptApi

open Scripts

/-- Result of a Python call: a returned value or a propagated exception. -/
inductive PyResult (α : Type)
  | ok (a : α)
  | exn (msg : String)
deriving Repr, DecidableEq

/-- Outcome of an underlying API call (`call_local_webui` or
`openai.ChatCompletion.create`): the call raised (HTTP error, bad
status, timeout, ...), or it returned a response whose relevant text
field is `choiceText` (`none` when the expected structure is absent). -/
inductive CallOutcome
  | raises
  | returns (choiceText : Option String)
deriving Repr, DecidableEq

/-- `format_api_response`: extract `choices[0].text` stripped; any
extraction failure is caught inside, logged, and yields `None`. -/
def format_api_response : Option String → Option String
  | some t => some (pyStrip t)
  | none => none

/-- `ask_gpt`.  The local path wraps the web-UI call, response
formatting and request logging in one `try`, returning `None` on any
exception.  The OpenAI path first raises `RuntimeError` when the API
key is unset (outside any `try`), then wraps the API call, the inline
`choices[0].message.content` extraction and the request logging,
returning `None` on any exception.  `logWriteRaises` models
`log_gpt_request` failing to write its log file. -/
def ask_gpt (useLocalLlm apiKeySet : Bool)
    (localOutcome openaiOutcome : CallOutcome) (logWriteRaises : Bool) :
    PyResult (Option String) :=
  if useLocalLlm then
    match localOutcome with
    | CallOutcome.raises => PyResult.ok none
    | CallOutcome.returns r =>
        if logWriteRaises then PyResult.ok none
        else PyResult.ok (format_api_response r)
  else
    if !apiKeySet then
      PyResult.exn "RuntimeError: OpenAI API key is not set"
    else
      match openaiOutcome with
      | CallOutcome.raises => PyResult.ok none
      | CallOutcome.returns r =>
          match r with
          | none => PyResult.ok none
          | some content =>
              if logWriteRaises then PyResult.ok none
              else PyResult.ok (some content)

end GptApi

namespace CheckCodec

open Scripts

def SUPPORTED_VIDEO : List String := ["h264"]

def SUPPORTED_AUDIO : List String := ["aac", "ac3", "mp3"]

def SUPPORTED_CONTAINER : List String := ["mp4", "m4v", "mov"]

/-- `VIDEO_PATTERNS`, in dict insertion order.  Each case-insensitive
regex is an alternation of fixed substrings, so it is recorded as the
list of substrings it matches (`h\.?264` matches `h264` or `h.264`). -/
def VIDEO_PATTERNS : List (String × List String) :=
  [("h264", ["h264", "h.264", "x264"]),
   ("h265", ["h265", "h.265", "hevc", "x265"]),
   ("vp9", ["vp9"]),
   ("av1", ["av1"])]

/-- `AUDIO_PATTERNS`, in dict insertion order. -/
def AUDIO_PATTERNS : List (String × List String) :=
  [("aac", ["aac"]),
   ("ac3", ["ac3", "dolby"]),
   ("mp3", ["mp3"]),
   ("flac", ["flac"]),
   ("dts", ["dts"])]

/-- `regex.search(name)` with `re.IGNORECASE` for one alternation of
fixed substrings: some alternative occurs in the lowercased name. -/
def regexSearchCI (alts : List String) (name : String) : Bool :=
  alts.any (fun lit => isInfixB lit.data (toLowerL name.data))

/-- `guess_codec`: the first pattern (in dict order) whose regex matches
the filename, or `"unknown"` when none matches. -/
def guess_codec (name : String) (patterns : List (String × List String)) : String :=
  match patterns.find? (fun p => regexSearchCI p.2 name) with
  | some p => p.1
  | none => "unknown"

/-- Characters after the last dot of a list, if any dot occurs. -/
def afterLastDot : List Char → Option (List Char)
  | [] => none
  | c :: rest =>
      match afterLastDot rest with
      | some s => some s
      | none => if c == '.' then some rest else none

/-- `pathlib.Path(name).suffix`: the final extension including its dot;
empty for a name with no dot, a purely leading dot, or a trailing dot. -/
def pathSuffix (name : String) : String :=
  match name.data with
  | [] => ""
  | _ :: rest =>
      match afterLastDot rest with
      | some [] => ""
      | some s => String.mk ('.' :: s)
      | none => ""

/-- `file.suffix.lower().lstrip(".")` as computed in `scan_media`. -/
def extOf (name : String) : String :=
  String.mk ((toLowerL (pathSuffix name).data).dropWhile (fun c => c == '.'))

/-- One row of the `scan_media` report. -/
structure MediaEntry where
  container : String
  video : String
  audio : String
  transcode : Bool
deriving Repr, DecidableEq

/-- The per-file body of the `scan_media` loop. -/
def scan_media_entry (name : String) : MediaEntry :=
  let ext := extOf name
  let videoCodec := guess_codec name VIDEO_PATTERNS
  let audioCodec := guess_codec name AUDIO_PATTERNS
  let containerOk := decide (ext ∈ SUPPORTED_CONTAINER)
  { container := ext,
    video := videoCodec,
    audio := audioCodec,
    transcode :=
      decide (videoCodec ∉ SUPPORTED_VIDEO) ||
      decide (audioCodec ∉ SUPPORTED_AUDIO) ||
      !containerOk }

/-- `scan_media` over the regular files found by `root.rglob("*.*")`
(directory traversal abstracted to the list of file names). -/
def scan_media (files : List String) : List MediaEntry :=
  files.map scan_media_entry

end CheckCodec

namespace Autofiller

open Scripts

def MIN_EPISODES : Nat := 30

/-- `f.lower().endswith((".mkv", ".mp4", ".avi"))` -/
def isEpisodeFile (f : String) : Bool :=
  [".mkv", ".mp4", ".avi"].any (fun e => isSuffixB e.data (toLowerL f.data))

/-- `get_episode_count` over the files produced by `os.walk`
(traversal abstracted to the flat list of file names). -/
def get_episode_count (files : List String) : Nat :=
  (files.filter isEpisodeFile).length

/-- One entry of the wildlife watchlist JSON. -/
structure SeriesEntry where
  tvdbId : Nat
  title : String
deriving Repr, DecidableEq

/-- The request loop of `main`: POST an add-series request per show, in
order, stopping (`break`) after the first request whose HTTP response
is OK.  `respOk id` models `response.ok` for the request with that
tvdb id.  Returns the ids actually requested, in order. -/
def request_loop (respOk : Nat → Bool) : List SeriesEntry → List Nat
  | [] => []
  | s :: rest =>
      if respOk s.tvdbId then [s.tvdbId]
      else s.tvdbId :: request_loop respOk rest

/-- `main`: count episode files; only when strictly below
`MIN_EPISODES` load and shuffle the watchlist and run the request loop
(`shuffled` is the watchlist in post-shuffle order).  Returns the tvdb
ids sent to Sonarr. -/
def autofiller_main (files : List String) (shuffled : List SeriesEntry)
    (respOk : Nat → Bool) : List Nat :=
  if get_episode_count files < MIN_EPISODES then request_loop respOk shuffled
  else []

end Autofiller

/-! ## Shared proof helpers and concrete test fixtures -/

namespace Scripts

/-- `List.all` distributes over an `if` on the list. -/
theorem all_ite_distrib {α : Type} (c : Prop) [Decidable c] (l₁ l₂ : List α)
    (f : α → Bool) :
    (if c then l₁ else l₂).all f = if c then l₁.all f else l₂.all f := by
  split <;> rfl

end Scripts

namespace ArchUpdate

open Scripts

/-- The default context of a plain `arch-update.py` run: no explicit
flags, hence a full update with auto-yes, cleanup, deep clean and the
OpenAI summarization backend. -/
def ctxDefault : Ctx :=
  { dryRun := false, assumeYes := true, cleanAfter := true, deepClean := true,
    removeOrphans := false, aggressiveCache := true, runNpmSudo := false,
    llmBackend := "openai" }

/-- `ctxDefault` with `--use-codex`. -/
def ctxCodexFirst : Ctx := { ctxDefault with llmBackend := "codex" }

/-- `ctxDefault` with `--manual`: interactive confirmations. -/
def ctxManual : Ctx := { ctxDefault with assumeYes := false }

/-- Environment in which every tool is installed. -/
def allTools : String → Bool := fun _ => true

/-- A user who answers yes to every confirmation question. -/
def allYes : String → Bool := fun _ => true

/-- A user who declines every confirmation question. -/
def allNo : String → Bool := fun _ => false

/-- Help texts advertising none of the optional AUR helper flags. -/
def noHelpFlags : String → String → Bool := fun _ _ => false

/-- A `parse_codex_json` stand-in that fails to parse anything. -/
def parseNoneFn : String → Option String := fun _ => none

@[simp] theorem teeLines_terminal (lines : List String) :
    ∀ st : RunState, (teeLines st lines).terminal = st.terminal ++ lines := by
  induction lines with
  | nil => intro st; simp [teeLines]
  | cons l ls ih => intro st; rw [teeLines]; simp [ih]

@[simp] theorem teeLines_logLines (lines : List String) :
    ∀ st : RunState, (teeLines st lines).logLines = st.logLines ++ lines := by
  induction lines with
  | nil => intro st; simp [teeLines]
  | cons l ls ih => intro st; rw [teeLines]; simp [ih]

/-- C5: outside dry-run mode, `Ctx.run` echoes the command line and then
tees the combined stdout/stderr of the subprocess line by line to both
the terminal and the log file: after the echo line, terminal and log
receive exactly the subprocess output `lines`, in order, followed only
by the failure notice when the exit code is non-zero. -/
theorem C5_run_tees_output (ctx : Ctx) (cmd : List String) (sudo' allowFail : Bool)
    (rc : Int) (lines : List String) (st : RunState)
    (hdry : ctx.dryRun = false) :
    (ctxRun ctx cmd sudo' allowFail (RunOutcome.ran rc lines) st).2.terminal =
      st.terminal ++ ["+ " ++ joinCmd (if sudo' then "sudo" :: cmd else cmd)] ++ lines ++
        (if rc ≠ 0 then
          ["Command failed " ++ toString rc ++ ": " ++
            joinCmd (if sudo' then "sudo" :: cmd else cmd)]
         else []) ∧
    (ctxRun ctx cmd sudo' allowFail (RunOutcome.ran rc lines) st).2.logLines =
      st.logLines ++ ["+ " ++ joinCmd (if sudo' then "sudo" :: cmd else cmd)] ++ lines ++
        (if rc ≠ 0 then
          ["Command failed " ++ toString rc ++ ": " ++
            joinCmd (if sudo' then "sudo" :: cmd else cmd)]
         else []) := by
  unfold ctxRun
  rw [hdry]
  by_cases hrc : rc = 0
  · subst hrc
    simp [ctxLog]
  · simp only [if_neg (by simp : ¬(false = true))]
    split_ifs with hA <;> simp [ctxLog, hrc, List.append_assoc]

/-- C5 witness: a concrete non-dry-run invocation with two output
lines, evaluated end to end. -/
theorem C5_run_tees_output_witness :
    ctxDefault.dryRun = false ∧
    (ctxRun ctxDefault ["pacman", "-Syu"] true false
        (RunOutcome.ran 0 ["line one", "line two"]) ⟨[], []⟩).2.logLines =
      ["+ sudo pacman -Syu", "line one", "line two"] :=
  ⟨rfl, by
    have h := (C5_run_tees_output ctxDefault ["pacman", "-Syu"] true false 0
      ["line one", "line two"] ⟨[], []⟩ rfl).2
    exact h.trans (by decide)⟩

end ArchUpdate

namespace AutoTooling

/-- When the wait loop returns at check `j`, the flag existed at `j`
and at no earlier check since polling began at `k`. -/
theorem waitLoop_spec (flags : Nat → Bool) :
    ∀ (fuel k j : Nat), waitLoop flags fuel k = some j →
      flags j = true ∧ k ≤ j ∧ ∀ m, k ≤ m → m < j → flags m = false := by
  intro fuel
  induction fuel with
  | zero => intro k j h; simp [waitLoop] at h
  | succ n ih =>
      intro k j h
      rw [waitLoop] at h
      cases hf : flags k with
      | true =>
          rw [hf] at h
          simp at h
          subst h
          exact ⟨hf, Nat.le_refl _,
            fun m hm1 hm2 => absurd (Nat.lt_of_le_of_lt hm1 hm2) (Nat.lt_irrefl _)⟩
      | false =>
          rw [hf] at h
          simp at h
          obtain ⟨hj, hk, hall⟩ := ih (k + 1) j h
          refine ⟨hj, Nat.le_of_succ_le hk, fun m hm1 hm2 => ?_⟩
          rcases Nat.eq_or_lt_of_le hm1 with heq | hlt
          · simpa [← heq] using hf
          · exact hall m hlt hm2

/-- C6: whenever an iteration of the `__main__` loop reaches its
merge/scrape work, the restart flag file existed at the check where
`wait_for_restart` returned, did not exist at any earlier check (the
loop slept through all of them), and has already been deleted by the
time the work starts; while the wait loop is still blocked
(`bot_iteration = none`) no cycle starts at all. -/
theorem C6_cycle_requires_flag (flags : Nat → Bool) (fuel : Nat)
    (r : IterationStart) (h : bot_iteration flags fuel = some r) :
    flags r.cycleStartPoll = true ∧
    (∀ m, m < r.cycleStartPoll → flags m = false) ∧
    r.flagAtCycleStart = false := by
  unfold bot_iteration wait_for_restart at h
  cases hw : waitLoop flags fuel 0 with
  | none => rw [hw] at h; simp at h
  | some k =>
      rw [hw] at h
      simp at h
      obtain ⟨hj, _, hall⟩ := waitLoop_spec flags fuel 0 k hw
      subst h
      exact ⟨hj, fun m hm => hall m (Nat.zero_le m) hm, rfl⟩

/-- C6 witness: the flag appears at the third check (index 2). -/
theorem C6_cycle_requires_flag_witness :
    bot_iteration (fun n => decide (n = 2)) 5 = some ⟨2, false⟩ ∧
    (fun n => decide (n = 2)) 2 = true ∧
    (⟨2, false⟩ : IterationStart).flagAtCycleStart = false := by
  refine ⟨by decide, ?_, ?_⟩
  · exact (C6_cycle_requires_flag (fun n => decide (n = 2)) 5 ⟨2, false⟩ (by decide)).1
  · exact (C6_cycle_requires_flag (fun n => decide (n = 2)) 5 ⟨2, false⟩ (by decide)).2.2

end AutoTooling

namespace GptApi

/-- C7: when the underlying API call raises — `call_local_webui` on the
local path, `openai.ChatCompletion.create` on the OpenAI path (reached
only with the API key set) — `ask_gpt` swallows the exception, logs it,
and returns `None` rather than propagating. -/
theorem C7_ask_gpt_catches (apiKeySet : Bool) (localOutcome openaiOutcome : CallOutcome)
    (logWriteRaises : Bool) :
    ask_gpt true apiKeySet CallOutcome.raises openaiOutcome logWriteRaises =
      PyResult.ok none ∧
    ask_gpt false true localOutcome CallOutcome.raises logWriteRaises =
      PyResult.ok none :=
  ⟨rfl, rfl⟩

end GptApi

namespace Autofiller

/-- Every request in the loop except possibly the last one received a
non-OK response: the loop breaks at the first OK. -/
theorem request_loop_dropLast_notOk (respOk : Nat → Bool) :
    ∀ l : List SeriesEntry,
      ((request_loop respOk l).dropLast).all (fun id => !respOk id) = true := by
  intro l
  induction l with
  | nil => simp [request_loop]
  | cons s rest ih =>
      rw [request_loop]
      cases hs : respOk s.tvdbId with
      | true => simp
      | false =>
          simp only [Bool.false_eq_true, if_false]
          cases hrl : request_loop respOk rest with
          | nil => simp
          | cons y ys =>
              rw [hrl] at ih
              simp [List.dropLast, ih, hs]

/-- At most one request in the loop received an OK response. -/
theorem request_loop_filter_le_one (respOk : Nat → Bool) :
    ∀ l : List SeriesEntry,
      ((request_loop respOk l).filter (fun id => respOk id)).length ≤ 1 := by
  intro l
  induction l with
  | nil => simp [request_loop]
  | cons s rest ih =>
      rw [request_loop]
      cases hs : respOk s.tvdbId with
      | true => simp [List.filter, hs]
      | false => simpa [List.filter, hs] using ih

/-- C10: the auto-requester sends add-series requests only when the
episode-file count is strictly below `MIN_EPISODES` (30); when the
count is 30 or more it sends none; and among the requests it does send,
it stops at the first one whose HTTP response is OK, so every request
but the last got a non-OK response and at most one request succeeded. -/
theorem C10_autofiller_bounded (files : List String) (shuffled : List SeriesEntry)
    (respOk : Nat → Bool) :
    (MIN_EPISODES ≤ get_episode_count files →
       autofiller_main files shuffled respOk = []) ∧
    ((autofiller_main files shuffled respOk).filter (fun id => respOk id)).length ≤ 1 ∧
    ((autofiller_main files shuffled respOk).dropLast).all (fun id => !respOk id) = true := by
  refine ⟨fun h => ?_, ?_, ?_⟩
  · simp [autofiller_main, Nat.not_lt.mpr h]
  · unfold autofiller_main
    split_ifs
    · exact request_loop_filter_le_one respOk shuffled
    · simp
  · unfold autofiller_main
    split_ifs
    · exact request_loop_dropLast_notOk respOk shuffled
    · simp

/-- C10 witness: with 30 episode files already present, no request is
sent even though the watchlist is non-empty and Sonarr would accept. -/
theorem C10_autofiller_bounded_witness :
    MIN_EPISODES ≤ get_episode_count (List.replicate 30 "e01.mkv") ∧
    autofiller_main (List.replicate 30 "e01.mkv") [⟨77, "wildlife"⟩] (fun _ => true) = [] :=
  ⟨by decide,
   (C10_autofiller_bounded (List.replicate 30 "e01.mkv") [⟨77, "wildlife"⟩]
      (fun _ => true)).1 (by decide)⟩

end Autofiller

namespace ArchUpdate

/-- C8: `parse_args` turns auto-yes on by default: whenever `--manual`
is absent — in particular when neither `--yes` nor `--manual` was
given — the resolved `assume_yes` is true, and a context with
`assume_yes` set answers every confirmation question with yes without
consulting the interactive answer function; only `--manual` yields
`assume_yes = false` and hence interactive confirmation. -/
theorem C8_auto_yes_default (a : Args) (ctx : Ctx) (ans ans' : String → Bool)
    (q : String) :
    (a.manual = false → (resolve_args a).assumeYes = true) ∧
    (a.manual = true → (resolve_args a).assumeYes = false) ∧
    (ctx.assumeYes = true →
      Ctx.confirm ctx ans q = true ∧ Ctx.confirm ctx ans' q = Ctx.confirm ctx ans q) := by
  refine ⟨fun hm => ?_, fun hm => ?_, fun hy => ?_⟩
  · obtain ⟨s, f, l, c, nl, dr, ay, m, nc, dc, ro, ac, ns, uo, uc⟩ := a
    simp only at hm
    subst hm
    cases ay <;>
      simp [resolve_args, apply_ite Args.manual, apply_ite Args.assumeYes]
  · obtain ⟨s, f, l, c, nl, dr, ay, m, nc, dc, ro, ac, ns, uo, uc⟩ := a
    simp only at hm
    subst hm
    cases ay <;>
      simp [resolve_args, apply_ite Args.manual, apply_ite Args.assumeYes]
  · simp [Ctx.confirm, hy]

/-- C8 witness: a bare invocation (all flags false, so neither `--yes`
nor `--manual`) resolves to auto-yes, and such a context confirms a
question positively with a user who would have declined. -/
theorem C8_auto_yes_default_witness :
    (Args.manual ⟨false, false, false, false, false, false, false, false,
        false, false, false, false, false, false, false⟩ = false ∧
      (resolve_args ⟨false, false, false, false, false, false, false, false,
        false, false, false, false, false, false, false⟩).assumeYes = true) ∧
    (ctxDefault.assumeYes = true ∧
      Ctx.confirm ctxDefault allNo "Run pacman -Syu?" = true) :=
  ⟨⟨rfl,
    (C8_auto_yes_default ⟨false, false, false, false, false, false, false, false,
        false, false, false, false, false, false, false⟩ ctxDefault allNo allNo
      "Run pacman -Syu?").1 rfl⟩,
   ⟨rfl,
    ((C8_auto_yes_default ⟨false, false, false, false, false, false, false, false,
        false, false, false, false, false, false, false⟩ ctxDefault allNo allNo
      "Run pacman -Syu?").2.2 rfl).1⟩⟩

end ArchUpdate

namespace ArchUpdate

open Scripts

/-- The OpenAI summary environment used by the concrete summarization
runs: non-empty log, API key set, request fails at the HTTP layer,
Codex installed and exiting cleanly with empty output. -/
def llmEnvOpenaiDown : LlmEnv :=
  { logTail := "upgraded 3 packages", apiKeyPresent := true,
    openaiOutcome := OpenAIOutcome.reqError, haveCodex := true,
    codexOutcome := CodexOutcome.ran 0 "" }

/-- Environment in which the OpenAI backend succeeds while a Codex run
fails with exit code 1 but leaves diagnostics on stdout. -/
def llmEnvCodexStdout : LlmEnv :=
  { logTail := "upgraded 3 packages", apiKeyPresent := true,
    openaiOutcome := OpenAIOutcome.content "openai summary", haveCodex := true,
    codexOutcome := CodexOutcome.ran 1 "partial summary" }

/-- An environment in which the OpenAI backend succeeds outright. -/
def llmEnvOpenaiOk : LlmEnv :=
  { logTail := "upgraded 3 packages", apiKeyPresent := true,
    openaiOutcome := OpenAIOutcome.content "all good", haveCodex := true,
    codexOutcome := CodexOutcome.ran 0 "" }

/-- A list with `isEmpty = false` is not nil. -/
theorem ne_nil_of_isEmpty_false {α : Type} {l : List α} (h : l.isEmpty = false) :
    l ≠ [] := by
  intro hc
  rw [hc] at h
  simp at h

/-- `summarize_with_openai` either leaves the summary file untouched or
writes a non-empty summary to it. -/
theorem summarize_with_openai_snd (ctx : Ctx) (en : Bool) (env : LlmEnv)
    (file : Option String) :
    (summarize_with_openai ctx en env file).2 = file ∨
    ∃ s, (summarize_with_openai ctx en env file).2 = some s ∧ s.data ≠ [] := by
  unfold summarize_with_openai
  split_ifs with h1 h2 h3 h4
  · exact Or.inl rfl
  · exact Or.inl rfl
  · exact Or.inl rfl
  · exact Or.inl rfl
  · cases ho : env.openaiOutcome with
    | reqError => exact Or.inl rfl
    | noChoices => exact Or.inl rfl
    | content s =>
        simp only
        split_ifs with h5
        · exact Or.inl rfl
        · exact Or.inr ⟨pyStrip s, rfl, by
            intro hc
            exact h5 (by simp [pyStrip] at hc ⊢; simp [hc])⟩

/-- `summarize_with_codex` either leaves the summary file untouched or
writes a non-empty summary (a parsed response or the non-empty stdout
fallback) to it. -/
theorem summarize_with_codex_snd (ctx : Ctx) (en : Bool) (env : LlmEnv)
    (parse : String → Option String) (file : Option String) :
    (summarize_with_codex ctx en env parse file).2 = file ∨
    ∃ s, (summarize_with_codex ctx en env parse file).2 = some s ∧ s.data ≠ [] := by
  unfold summarize_with_codex
  split_ifs with h1 h2 h3 h4
  · exact Or.inl rfl
  · exact Or.inl rfl
  · exact Or.inl rfl
  · exact Or.inl rfl
  · cases ho : env.codexOutcome with
    | execError => exact Or.inl rfl
    | ran rc stdout =>
        simp only
        by_cases h5 : rc = 0
        · cases hp : parse (pyStrip stdout) with
          | none =>
              cases h6 : (pyStrip stdout).data.isEmpty with
              | true => simp [h5, hp, h6]
              | false =>
                  simp only [h5, hp, h6, not_true_eq_false, ne_eq, if_false,
                    Bool.not_false, if_true]
                  exact Or.inr ⟨pyStrip stdout, rfl, ne_nil_of_isEmpty_false h6⟩
          | some r =>
              cases h7 : (pyStrip r).data.isEmpty with
              | false =>
                  simp only [h5, hp, h7, not_true_eq_false, ne_eq, if_false,
                    Bool.false_eq_true]
                  exact Or.inr ⟨pyStrip r, rfl, ne_nil_of_isEmpty_false h7⟩
              | true =>
                  cases h6 : (pyStrip stdout).data.isEmpty with
                  | true => simp [h5, hp, h7, h6]
                  | false =>
                      simp only [h5, hp, h7, h6, not_true_eq_false, ne_eq, if_false,
                        if_true, Bool.not_false]
                      exact Or.inr ⟨pyStrip stdout, rfl, ne_nil_of_isEmpty_false h6⟩
        · cases h6 : (pyStrip stdout).data.isEmpty with
          | true => simp [h5, h6]
          | false =>
              simp only [h5, h6, ne_eq, not_false_eq_true, if_true, Bool.not_false]
              exact Or.inr ⟨pyStrip stdout, rfl, ne_nil_of_isEmpty_false h6⟩

/-- C1 counterexample: with LLM summarization enabled (no `--no-llm`),
a non-empty log, and the default configuration, the backends attempted
are exactly hosted OpenAI followed by the Codex CLI — two backends,
the first of which is the hosted API.  There is no chain of four HTTP
backends and no local OpenAI-compatible server, Ollama, or
text-generation-webui backend anywhere in the dispatch. -/
theorem C1_counterexample :
    pyBlank llmEnvOpenaiDown.logTail = false ∧
    (runSummarization ctxDefault false llmEnvOpenaiDown parseNoneFn none).1 =
      [Backend.openai, Backend.codex] := by
  exact ⟨by decide, by decide⟩

/-- C1 (amended): when LLM summarization is enabled, the unified
updater attempts summarization through an ordered fallback chain of
exactly two backends — the hosted OpenAI API first and the Codex CLI
second under the default `--use-openai` backend, and in the reverse
order under `--use-codex` — trying the second backend only after the
first one reports failure. -/
theorem C1_two_backend_fallback (ctx : Ctx) (env : LlmEnv)
    (parse : String → Option String) (file : Option String) :
    (ctx.llmBackend = "openai" →
      ((summarize_with_openai ctx true env file).1 = true →
        (runSummarization ctx false env parse file).1 = [Backend.openai]) ∧
      ((summarize_with_openai ctx true env file).1 = false →
        (runSummarization ctx false env parse file).1 =
          [Backend.openai, Backend.codex])) ∧
    (¬ ctx.llmBackend = "openai" →
      ((summarize_with_codex ctx true env parse file).1 = true →
        (runSummarization ctx false env parse file).1 = [Backend.codex]) ∧
      ((summarize_with_codex ctx true env parse file).1 = false →
        (runSummarization ctx false env parse file).1 =
          [Backend.codex, Backend.openai])) := by
  constructor
  · intro hb
    constructor <;> intro hr <;> simp [runSummarization, hb, hr]
  · intro hb
    constructor <;> intro hr <;> simp [runSummarization, hb, hr]

/-- C1 witness: in the default configuration with the OpenAI request
failing, both implications fire at a concrete environment. -/
theorem C1_two_backend_fallback_witness :
    (ctxDefault.llmBackend = "openai" ∧
      (summarize_with_openai ctxDefault true llmEnvOpenaiDown none).1 = false) ∧
    (runSummarization ctxDefault false llmEnvOpenaiDown parseNoneFn none).1 =
      [Backend.openai, Backend.codex] :=
  ⟨⟨rfl, by decide⟩,
   ((C1_two_backend_fallback ctxDefault llmEnvOpenaiDown parseNoneFn none).1
      rfl).2 (by decide)⟩

/-- C3 counterexample: under `--use-codex`, a Codex run that exits
non-zero with non-empty stdout writes that stdout to the summary file
as a non-empty best-effort summary yet still reports failure, so the
OpenAI backend is tried afterwards and overwrites the file.  The
backend chain therefore continued past a backend that produced a
non-empty summary, and the final summary file holds the second
response, not the first. -/
theorem C3_counterexample :
    (summarize_with_codex ctxCodexFirst true llmEnvCodexStdout parseNoneFn none).2 =
      some "partial summary" ∧
    (summarize_with_codex ctxCodexFirst true llmEnvCodexStdout parseNoneFn none).1 =
      false ∧
    (runSummarization ctxCodexFirst false llmEnvCodexStdout parseNoneFn none).1 =
      [Backend.codex, Backend.openai] ∧
    (runSummarization ctxCodexFirst false llmEnvCodexStdout parseNoneFn none).2 =
      some "openai summary" := by
  exact ⟨by decide, by decide, by decide, by decide⟩
/-- A successful non-dry-run OpenAI summarization has written a
non-empty summary to the summary file. -/
theorem summarize_with_openai_fst_true (ctx : Ctx) (env : LlmEnv)
    (file : Option String) (hdry : ctx.dryRun = false)
    (hok : (summarize_with_openai ctx true env file).1 = true) :
    ∃ s, (summarize_with_openai ctx true env file).2 = some s ∧ s.data ≠ [] := by
  revert hok
  unfold summarize_with_openai
  split_ifs with h1 h2 h3 h4
  · simp
  · rw [hdry] at h2; simp at h2
  · simp
  · simp
  · cases env.openaiOutcome with
    | reqError => simp
    | noChoices => simp
    | content s =>
        simp only
        split_ifs with h5
        · simp
        · intro _
          refine ⟨pyStrip s, rfl, fun hc => ?_⟩
          rw [hc] at h5
          exact h5 rfl

/-- A successful non-dry-run Codex summarization has written a
non-empty summary (possibly the stdout fallback) to the summary file. -/
theorem summarize_with_codex_fst_true (ctx : Ctx) (env : LlmEnv)
    (parse : String → Option String) (file : Option String)
    (hdry : ctx.dryRun = false)
    (hok : (summarize_with_codex ctx true env parse file).1 = true) :
    ∃ s, (summarize_with_codex ctx true env parse file).2 = some s ∧ s.data ≠ [] := by
  revert hok
  unfold summarize_with_codex
  split_ifs with h1 h2 h3 h4
  · simp
  · rw [hdry] at h2; simp at h2
  · simp
  · simp
  · cases env.codexOutcome with
    | execError => simp
    | ran rc stdout =>
        simp only
        by_cases h5 : rc = 0
        · cases hp : parse (pyStrip stdout) with
          | none => simp [h5, hp]
          | some r =>
              cases h7 : (pyStrip r).data.isEmpty with
              | false =>
                  simp only [h5, hp, h7, not_true_eq_false, ne_eq, if_false,
                    Bool.false_eq_true]
                  exact fun _ => ⟨pyStrip r, rfl, ne_nil_of_isEmpty_false h7⟩
              | true =>
                  cases h6 : (pyStrip stdout).data.isEmpty with
                  | true => simp [h5, hp, h7, h6]
                  | false =>
                      simp only [h5, hp, h7, h6, not_true_eq_false, ne_eq, if_false,
                        if_true, Bool.not_false]
                      exact fun _ => ⟨pyStrip stdout, rfl,
                        ne_nil_of_isEmpty_false h6⟩
        · simp [h5]

/-- C3 (amended): a backend that reports success ends the chain with
its summary as the final file contents; a successful non-dry-run
backend has always written a non-empty summary; and no backend ever
overwrites the summary file with empty content.  (As the counterexample
shows, a failing Codex run may still write its non-empty stdout as a
best-effort summary which the subsequent OpenAI fallback overwrites.) -/
theorem C3_first_nonempty_summary (ctx : Ctx) (noLlm : Bool) (env : LlmEnv)
    (parse : String → Option String) (file : Option String) :
    (ctx.llmBackend = "openai" →
      (summarize_with_openai ctx true env file).1 = true →
      runSummarization ctx false env parse file =
        ([Backend.openai], (summarize_with_openai ctx true env file).2)) ∧
    (¬ ctx.llmBackend = "openai" →
      (summarize_with_codex ctx true env parse file).1 = true →
      runSummarization ctx false env parse file =
        ([Backend.codex], (summarize_with_codex ctx true env parse file).2)) ∧
    (ctx.dryRun = false →
      (summarize_with_openai ctx true env file).1 = true →
      ∃ s, (summarize_with_openai ctx true env file).2 = some s ∧ s.data ≠ []) ∧
    (ctx.dryRun = false →
      (summarize_with_codex ctx true env parse file).1 = true →
      ∃ s, (summarize_with_codex ctx true env parse file).2 = some s ∧ s.data ≠ []) ∧
    ((runSummarization ctx noLlm env parse file).2 = file ∨
      ∃ s, (runSummarization ctx noLlm env parse file).2 = some s ∧ s.data ≠ []) := by
  refine ⟨fun hb hr => by simp [runSummarization, hb, hr],
          fun hb hr => by simp [runSummarization, hb, hr],
          fun hdry hok => summarize_with_openai_fst_true ctx env file hdry hok,
          fun hdry hok => summarize_with_codex_fst_true ctx env parse file hdry hok,
          ?_⟩
  unfold runSummarization
  split_ifs with hn hb hf hf
  · exact Or.inl rfl
  · exact summarize_with_openai_snd ctx true env file
  · rcases summarize_with_codex_snd ctx true env parse
      ((summarize_with_openai ctx true env file).2) with h | ⟨s, hs, hne⟩
    · rcases summarize_with_openai_snd ctx true env file with h2 | ⟨s, hs, hne⟩
      · exact Or.inl (h.trans h2)
      · exact Or.inr ⟨s, h.trans hs, hne⟩
    · exact Or.inr ⟨s, hs, hne⟩
  · exact summarize_with_codex_snd ctx true env parse file
  · rcases summarize_with_openai_snd ctx true env
      ((summarize_with_codex ctx true env parse file).2) with h | ⟨s, hs, hne⟩
    · rcases summarize_with_codex_snd ctx true env parse file with h2 | ⟨s, hs, hne⟩
      · exact Or.inl (h.trans h2)
      · exact Or.inr ⟨s, h.trans hs, hne⟩
    · exact Or.inr ⟨s, hs, hne⟩

/-- C3 witness: a successful default-configuration OpenAI run at a
concrete environment: the chain stops at OpenAI and a non-empty summary
is in the file. -/
theorem C3_first_nonempty_summary_witness :
    (ctxDefault.llmBackend = "openai" ∧
      (summarize_with_openai ctxDefault true llmEnvOpenaiOk none).1 = true ∧
      ctxDefault.dryRun = false) ∧
    runSummarization ctxDefault false llmEnvOpenaiOk parseNoneFn none =
      ([Backend.openai], some "all good") :=
  ⟨⟨rfl, by decide, rfl⟩, by
    have h := (C3_first_nonempty_summary ctxDefault false llmEnvOpenaiOk
      parseNoneFn none).1 rfl (by decide)
    exact h.trans (by decide)⟩

/-- Every program the four update areas can possibly invoke through
`Ctx.run`: the package managers guarded by confirmation prompts, the
Python interpreter for the pip snippet, and `bash` for the docker image
pulls.  `snap`, `brew` and `nix` do not appear in the script. -/
def updatePrograms : List String :=
  ["apt-get", "pacman", "yay", "paru", "flatpak", "pipx", sysExecutable,
   "npm", "cargo", "gem", "bash"]

/-- Whatever the environment and answers, every command the update
areas hand to `Ctx.run` invokes one of `updatePrograms`. -/
theorem mainUpdateCmds_programs (sys flat lang cont : Bool) (ctx : Ctx)
    (have_ ans : String → Bool) (helpFlag : String → String → Bool) :
    (mainUpdateCmds sys flat lang cont ctx have_ ans helpFlag).all
      (fun inv => updatePrograms.contains inv.program) = true := by
  simp [mainUpdateCmds, update_system_cmds, update_flatpak_cmds,
    update_languages_cmds, update_containers_cmds, aurBlock, aurArgs,
    List.all_append, all_ite_distrib, List.contains_cons,
    updatePrograms, sysExecutable]

/-- The programs invoked by a full default run (`arch-update.py` with
no arguments) on a machine where every tool is installed, every prompt
is auto-confirmed, and the AUR helper help texts advertise no extra
flags. -/
def fullRunPrograms : List String :=
  (mainUpdateCmds true true true true ctxDefault allTools allYes
      noHelpFlags).map Invocation.program

/-- C2 counterexample: even with every tool present and every prompt
confirmed, the unified updater never issues a `snap`, `brew` or `nix`
command — none of these managers appears in the script — refuting the
claim that snap, brew and nix updates are among the commands it runs. -/
theorem C2_counterexample :
    fullRunPrograms.contains "snap" = false ∧
    fullRunPrograms.contains "brew" = false ∧
    fullRunPrograms.contains "nix" = false := by
  exact ⟨by decide, by decide, by decide⟩

/-- C2 (amended): behind confirmation prompts the updater invokes
apt-get, pacman, one AUR helper (yay, or paru only when yay is absent),
flatpak, pipx, the Python interpreter for user-pip upgrades, npm, cargo
(via cargo-install-update), gem, and bash for docker image pulls — and
nothing else: no snap, brew or nix command exists in the script, and
paru is not invoked when yay is present. -/
theorem C2_invoked_managers :
    (∀ (sys flat lang cont : Bool) (ctx : Ctx) (have_ ans : String → Bool)
        (helpFlag : String → String → Bool),
      (mainUpdateCmds sys flat lang cont ctx have_ ans helpFlag).all
        (fun inv => updatePrograms.contains inv.program) = true) ∧
    ("snap" ∉ updatePrograms ∧ "brew" ∉ updatePrograms ∧ "nix" ∉ updatePrograms) ∧
    (["apt-get", "pacman", "yay", "flatpak", "pipx", sysExecutable, "npm",
        "cargo", "gem", "bash"].all (fun pr => fullRunPrograms.contains pr) = true) ∧
    fullRunPrograms.contains "paru" = false := by
  exact ⟨mainUpdateCmds_programs, by decide, by decide, by decide⟩

/-- Each package manager paired with the confirmation question that
guards it in the update areas (the AUR helper question is
`f"Run {aur_helper} -Syu?"`; the pip upgrade runs `sys.executable`;
docker pulls run through `bash -c`). -/
def managerQuestions : List (String × String) :=
  [("apt-get", "Run apt-get update && apt-get upgrade?"),
   ("pacman", "Run pacman -Syu?"),
   ("yay", "Run yay -Syu?"),
   ("paru", "Run paru -Syu?"),
   ("flatpak", "Run flatpak update?"),
   ("pipx", "pipx upgrade --all?"),
   (sysExecutable, "Upgrade user pip packages?"),
   ("npm", "npm -g update?"),
   ("cargo", "cargo install-update -a?"),
   ("gem", "gem update user?"),
   ("bash", "Pull images for running containers?")]

@[simp] theorem aurQuestion_yay : ("Run " ++ "yay" ++ " -Syu?") = "Run yay -Syu?" :=
  rfl

@[simp] theorem aurQuestion_paru : ("Run " ++ "paru" ++ " -Syu?") = "Run paru -Syu?" :=
  rfl

/-- C4: every package-manager update command is guarded by its
confirmation prompt: whenever `Ctx.confirm` answers false for a
manager's question — the user declined or stdin hit EOF, which both
require `assume_yes` to be off — no executed update command invokes
that manager's program. -/
theorem C4_updates_behind_confirmation (sys flat lang cont : Bool) (ctx : Ctx)
    (have_ ans : String → Bool) (helpFlag : String → String → Bool)
    (pq : String × String) (hpq : pq ∈ managerQuestions)
    (hconf : Ctx.confirm ctx ans pq.2 = false) :
    (executedCmds sys flat lang cont ctx have_ ans helpFlag).all
      (fun inv => !(inv.program == pq.1)) = true := by
  have hAY : ctx.assumeYes = false := by
    by_contra hc
    rw [Bool.not_eq_false] at hc
    simp [Ctx.confirm, hc] at hconf
  have hq : ans pq.2 = false := by
    simpa [Ctx.confirm, hAY] using hconf
  fin_cases hpq <;>
    simp only at hq <;>
    simp [executedCmds, mainUpdateCmds, update_system_cmds, update_flatpak_cmds,
      update_languages_cmds, update_containers_cmds, aurBlock, aurArgs,
      Ctx.confirm, hAY, hq, List.all_append, all_ite_distrib, sysExecutable]

/-- C4 witness: in manual mode with a user who declines everything, the
pacman question is answered false and no executed command is pacman. -/
theorem C4_updates_behind_confirmation_witness :
    ((("pacman", "Run pacman -Syu?") ∈ managerQuestions) ∧
      Ctx.confirm ctxManual allNo "Run pacman -Syu?" = false) ∧
    (executedCmds true true true true ctxManual allTools allNo noHelpFlags).all
      (fun inv => !(inv.program == "pacman")) = true :=
  ⟨⟨by decide, by decide⟩,
   C4_updates_behind_confirmation true true true true ctxManual allTools allNo
     noHelpFlags ("pacman", "Run pacman -Syu?") (by decide) (by decide)⟩

end ArchUpdate

namespace CheckCodec

open Scripts

/-- C9: for every scanned file, the transcode flag is set exactly when
the guessed video codec is not h264, or the guessed audio codec is not
one of aac/ac3/mp3, or the lowercased extension is not one of
mp4/m4v/mov; `guess_codec` returns "unknown" exactly when no video
pattern matches the filename; and a file matching no video pattern is
always flagged. -/
theorem C9_transcode_flag (name : String) :
    ((scan_media_entry name).transcode = true ↔
      (guess_codec name VIDEO_PATTERNS ≠ "h264" ∨
       guess_codec name AUDIO_PATTERNS ∉ (["aac", "ac3", "mp3"] : List String) ∨
       extOf name ∉ (["mp4", "m4v", "mov"] : List String))) ∧
    (guess_codec name VIDEO_PATTERNS = "unknown" ↔
      ∀ pr ∈ VIDEO_PATTERNS, regexSearchCI pr.2 name = false) ∧
    ((∀ pr ∈ VIDEO_PATTERNS, regexSearchCI pr.2 name = false) →
      (scan_media_entry name).transcode = true) := by
  refine ⟨?_, ?_, ?_⟩
  · simp [scan_media_entry, SUPPORTED_VIDEO, SUPPORTED_AUDIO, SUPPORTED_CONTAINER]
    tauto
  · cases hf : VIDEO_PATTERNS.find? (fun pr => regexSearchCI pr.2 name) with
    | none =>
        have hall := List.find?_eq_none.mp hf
        constructor
        · intro _ pr hpr
          simpa using hall pr hpr
        · intro _
          simp [guess_codec, hf]
    | some pr =>
        have hmem : pr ∈ VIDEO_PATTERNS := List.mem_of_find?_eq_some hf
        have hpred := List.find?_some hf
        constructor
        · intro hu
          exfalso
          simp only [guess_codec, hf] at hu
          fin_cases hmem <;> simp_all
        · intro hall
          exfalso
          have h2 : regexSearchCI pr.2 name = true := by simpa using hpred
          rw [hall pr hmem] at h2
          exact Bool.false_ne_true h2
  · intro hall
    have hf : VIDEO_PATTERNS.find? (fun pr => regexSearchCI pr.2 name) = none :=
      List.find?_eq_none.mpr (fun x hx => by simp [hall x hx])
    simp [scan_media_entry, guess_codec, hf, SUPPORTED_VIDEO]

/-- C9 witness: `nature.webm` matches no video pattern, so its codec is
unknown and it is flagged for transcoding. -/
theorem C9_transcode_flag_witness :
    (∀ pr ∈ VIDEO_PATTERNS, regexSearchCI pr.2 "nature.webm" = false) ∧
    (scan_media_entry "nature.webm").transcode = true :=
  ⟨by decide, (C9_transcode_flag "nature.webm").2.2 (by decide)⟩

end CheckCodec
